import Mathlib

/-!
Shallow embedding of `src/qmk/secret_storage.c` (the secret-storage module:
layout constants, flash I/O engine, concurrency/abort guard, and the raw-HID
command dispatcher), together with theorems settling the specification claims.

Modelling conventions:
* Machine bytes and `uint32_t` values are `Nat`; wherever the C code's 32-bit
  overflow matters (the `offset + size` range checks and
  `secret_flash_offset`), the model applies `% 4294967296` explicitly.
* Flash memory is a total function `Nat → Nat` from absolute flash offset to
  byte value.  The C code reads flash through the XIP window at
  `XIP_BASE + flash_offset`; since that mapping is a fixed linear shift, the
  model indexes flash directly by flash offset on both the read path and the
  erase/program path.
* The 32-byte request/response buffers are total functions `Nat → Nat`;
  claims about frame contents are stated on indices `< 32`.
* The volatile `secret_abort` flag, set asynchronously by the key hook while
  an operation is in flight, is modelled by an oracle `abortAt : Nat → Bool`
  giving the value the flag would be seen to hold at the k-th read.  The
  engines read the oracle at each loop-head check (exactly where the C code
  polls `secret_abort`) and return the index of the next unread slot; the
  dispatcher's final `if (secret_abort)` test reads the oracle there.
* The build-time constants (`PICO_FLASH_SIZE_BYTES`,
  `WEAR_LEVELING_BACKING_SIZE`, `SECRET_STORAGE_SIZE`, `FLASH_SECTOR_SIZE`,
  `FLASH_PAGE_SIZE`) form a `Cfg` structure whose propositional fields are
  the module's `_Static_assert`s plus the hardware facts that the page size
  divides the sector size and that flash sizes are `uint32_t` quantities.
-/

namespace SecretStorage

/-- A 32-byte transport frame, as a total byte function (only indices
`0..31` are meaningful). -/
def Frame : Type := Nat → Nat

/-- Flash contents: absolute flash offset to byte value. -/
def Flash : Type := Nat → Nat

/-- Command byte `SECRET_CMD_INFO` (0xA0). -/
def SECRET_CMD_INFO : Nat := 0xA0

/-- Command byte `SECRET_CMD_READ` (0xA1). -/
def SECRET_CMD_READ : Nat := 0xA1

/-- Command byte `SECRET_CMD_WRITE` (0xA2). -/
def SECRET_CMD_WRITE : Nat := 0xA2

/-- Command byte `SECRET_CMD_ERASE` (0xA3). -/
def SECRET_CMD_ERASE : Nat := 0xA3

/-- Status byte `SECRET_STATUS_OK`. -/
def SECRET_STATUS_OK : Nat := 0x00

/-- Status byte `SECRET_STATUS_ERR`. -/
def SECRET_STATUS_ERR : Nat := 0x01

/-- Status byte `SECRET_STATUS_BUSY`. -/
def SECRET_STATUS_BUSY : Nat := 0x02

/-- Status byte `SECRET_STATUS_RANGE`. -/
def SECRET_STATUS_RANGE : Nat := 0x03

/-- Status byte `SECRET_STATUS_ALIGN`. -/
def SECRET_STATUS_ALIGN : Nat := 0x04

/-- Status byte `SECRET_STATUS_ABORT`. -/
def SECRET_STATUS_ABORT : Nat := 0x05

/-- `SECRET_MAX_READ` (28). -/
def SECRET_MAX_READ : Nat := 28

/-- `SECRET_MAX_WRITE` (26). -/
def SECRET_MAX_WRITE : Nat := 26

/-- Build-time geometry constants, with the module's `_Static_assert`s as
propositional fields (`storage_pos`, `storage_aligned`, `backing_aligned`,
`base_aligned`, `fits`), the RP2040 hardware facts `sector_pos`, `page_pos`,
`page_dvd_sector` (`FLASH_PAGE_SIZE` divides `FLASH_SECTOR_SIZE`),
`sector_dvd` (`FLASH_SECTOR_SIZE` is a power of two, hence divides `2^32`),
and `total_le` (flash sizes are `uint32_t` quantities). -/
structure Cfg where
  totalFlash : Nat
  backingSize : Nat
  storageSize : Nat
  sectorSize : Nat
  pageSize : Nat
  storage_pos : 0 < storageSize
  storage_aligned : storageSize % sectorSize = 0
  backing_aligned : backingSize % sectorSize = 0
  base_aligned : (totalFlash - backingSize - storageSize) % sectorSize = 0
  fits : storageSize + backingSize ≤ totalFlash
  sector_pos : 0 < sectorSize
  page_pos : 0 < pageSize
  page_dvd_sector : pageSize ∣ sectorSize
  sector_dvd : sectorSize ∣ 4294967296
  total_le : totalFlash ≤ 4294967296

/-- `SECRET_STORAGE_BASE = PICO_FLASH_SIZE_BYTES - WEAR_LEVELING_BACKING_SIZE
- SECRET_STORAGE_SIZE`. -/
def Cfg.base (cfg : Cfg) : Nat :=
  cfg.totalFlash - cfg.backingSize - cfg.storageSize

/-- `read_u32_be`: big-endian 32-bit read of four frame bytes starting at
index `i`. -/
def read_u32_be (q : Frame) (i : Nat) : Nat :=
  (q i <<< 24) ||| (q (i+1) <<< 16) ||| (q (i+2) <<< 8) ||| q (i+3)

/-- Point update of a frame (one `p[k] = v` store). -/
def upd (f : Frame) (i v : Nat) : Frame :=
  fun j => if j = i then v else f j

/-- `write_u32_be`: store the four big-endian bytes of `v` at indices
`i..i+3` (each byte is `(v >> s) & 0xFF`). -/
def write_u32_be (f : Frame) (i v : Nat) : Frame :=
  upd (upd (upd (upd f i ((v >>> 24) % 256)) (i+1) ((v >>> 16) % 256))
    (i+2) ((v >>> 8) % 256)) (i+3) (v % 256)

/-- `secret_flash_offset(offset) = SECRET_STORAGE_BASE + offset`, a
`uint32_t` sum. -/
def secret_flash_offset (cfg : Cfg) (offset : Nat) : Nat :=
  (cfg.base + offset) % 4294967296

/-- `secret_read_bytes`: the engine's bulk read.  The C code memcpy's
`length` bytes from `XIP_BASE + secret_flash_offset(offset)`; the XIP window
maps flash linearly, so the model returns the byte function
`i ↦ flash (secret_flash_offset offset + i)` (the dispatcher consults it
only for `i < length`). -/
def secret_read_bytes (cfg : Cfg) (flash : Flash) (offset : Nat) : Nat → Nat :=
  fun i => flash (secret_flash_offset cfg offset + i)

/-- `flash_range_erase(addr, len)`: sets bytes `[addr, addr+len)` to the
erased fill value 0xFF. -/
def flash_range_erase (f : Flash) (addr len : Nat) : Flash :=
  fun a => if addr ≤ a ∧ a < addr + len then 0xFF else f a

/-- `flash_range_program(addr, buf, len)`: programs bytes `[addr, addr+len)`
from `buf`. -/
def flash_range_program (f : Flash) (addr : Nat) (buf : Nat → Nat) (len : Nat) : Flash :=
  fun a => if addr ≤ a ∧ a < addr + len then buf (a - addr) else f a

/-- The page-programming loop
`for (i = 0; i < FLASH_SECTOR_SIZE; i += FLASH_PAGE_SIZE)
   flash_range_program(sector_start + i, buf + i, FLASH_PAGE_SIZE)`.
Since `FLASH_PAGE_SIZE` divides `FLASH_SECTOR_SIZE`, the C loop runs exactly
`FLASH_SECTOR_SIZE / FLASH_PAGE_SIZE` times; `n` counts the remaining
iterations and `i` is the loop counter. -/
def program_pages (ss : Nat) (buf : Nat → Nat) (P : Nat) : Nat → Nat → Flash → Flash
  | 0, _, f => f
  | n+1, i, f =>
      program_pages ss buf P n (i + P)
        (flash_range_program f (ss + i) (fun j => buf (i + j)) P)

/-- One iteration step plus recursion of the `secret_write_bytes` loop.
Arguments: `fuel` (structural bound, always instantiated to the initial
`length`, which dominates the iteration count because every chunk is at
least one byte), current flash, current address, remaining source bytes,
remaining length, and the abort-oracle read index `k`.  The body mirrors the
C loop: poll abort; compute `sector_start = addr & ~(FLASH_SECTOR_SIZE-1)`
(equal to `addr - addr % FLASH_SECTOR_SIZE` for the power-of-two sector
size), `sector_offset`, and `chunk = min(FLASH_SECTOR_SIZE - sector_offset,
length)`; copy the whole current sector into the scratch buffer and overlay
the chunk (`scratch`); erase the sector; program it page by page; advance.
The advance `addr += chunk` is a `uint32_t` addition and is therefore taken
`% 2^32`, exactly as the C code wraps it.
Returns (engine result, flash, next abort-oracle index). -/
def write_go (cfg : Cfg) (abortAt : Nat → Bool) :
    Nat → Flash → Nat → (Nat → Nat) → Nat → Nat → Bool × Flash × Nat
  | _, f, _, _, 0, k => (true, f, k)
  | 0, f, _, _, _, k => (true, f, k)
  | fuel+1, f, addr, src, length, k =>
      if abortAt k then (false, f, k+1)
      else
        let ss := addr - addr % cfg.sectorSize
        let soff := addr % cfg.sectorSize
        let chunk := min (cfg.sectorSize - soff) length
        let scratch : Nat → Nat := fun i =>
          if soff ≤ i ∧ i < soff + chunk then src (i - soff) else f (ss + i)
        let f1 := flash_range_erase f ss cfg.sectorSize
        let f2 := program_pages ss scratch cfg.pageSize
          (cfg.sectorSize / cfg.pageSize) 0 f1
        write_go cfg abortAt fuel f2 ((addr + chunk) % 4294967296)
          (fun i => src (i + chunk)) (length - chunk) (k+1)

/-- `secret_write_bytes(offset, src, length)`: read-modify-program write of
`length` bytes from `src` at region offset `offset`. -/
def secret_write_bytes (cfg : Cfg) (abortAt : Nat → Bool) (flash : Flash)
    (offset : Nat) (src : Nat → Nat) (length : Nat) : Bool × Flash × Nat :=
  write_go cfg abortAt length flash (secret_flash_offset cfg offset) src length 0

/-- The body of the sector-erase loop
`for (addr = start; addr < end; addr += FLASH_SECTOR_SIZE)`: `n` counts the
remaining iterations (computed by the caller from the `uint32_t` values of
`start` and `end`, see `secret_erase_range`), and the abort flag is polled
(`abortAt k`) before each sector, exactly as in the C loop body.  During
the iterations actually executed `addr` never wraps: `addr` and `end` are
both sector-aligned residues of the same phase (the power-of-two sector
size divides `2^32`), so `addr < end` implies `addr + FLASH_SECTOR_SIZE ≤
end < 2^32`. -/
def erase_loop (cfg : Cfg) (abortAt : Nat → Bool) :
    Nat → Flash → Nat → Nat → Bool × Flash × Nat
  | 0, f, _, k => (true, f, k)
  | n+1, f, addr, k =>
      if abortAt k then (false, f, k+1)
      else erase_loop cfg abortAt n
        (flash_range_erase f addr cfg.sectorSize) (addr + cfg.sectorSize) (k+1)

/-- `secret_erase_range(offset, length)`: alignment guard, then the sector
loop.  The C code computes `uint32_t start = secret_flash_offset(offset)`
and `uint32_t end = start + length`, the latter wrapping modulo `2^32`.
Both are multiples of the sector size with the same phase (the sector size
divides `2^32`), so the for-loop `addr = start; addr < end; addr += S`
executes exactly `(end - start) / S` iterations when `end ≥ start` — with
`addr` never wrapping, since `addr < end < 2^32` inside the loop — and
zero iterations when `end < start` (then the loop condition fails at once
and the function returns true without touching flash or polling abort);
Nat truncated subtraction yields exactly this count. -/
def secret_erase_range (cfg : Cfg) (abortAt : Nat → Bool) (flash : Flash)
    (offset length : Nat) : Bool × Flash × Nat :=
  if offset % cfg.sectorSize ≠ 0 ∨ length % cfg.sectorSize ≠ 0 then
    (false, flash, 0)
  else
    let start := secret_flash_offset cfg offset
    let endAddr := (start + length) % 4294967296
    erase_loop cfg abortAt ((endAddr - start) / cfg.sectorSize) flash start 0

/-- QMK keycode `KC_ESC` (`KC_ESCAPE`, 0x29). -/
def KC_ESC : Nat := 0x29

/-- `secret_storage_process_record_user(keycode, record)`: given the current
`(secret_busy, secret_abort)` flags, the keycode and the `pressed` bit of the
key event, returns (hook return value, new busy flag, new abort flag). -/
def secret_storage_process_record_user (busy abort : Bool)
    (keycode : Nat) (pressed : Bool) : Bool × Bool × Bool :=
  if busy then
    (false, busy, if pressed ∧ keycode = KC_ESC then true else abort)
  else
    (true, busy, abort)

/-- Command classification of `raw_hid_receive_kb` lines 125-136: byte 0
first; if it is not one of the four command codes, byte 1; `some (base,
cmd)` on success, `none` when neither byte is a recognized code. -/
def is_cmd (c : Nat) : Bool :=
  c == SECRET_CMD_INFO || c == SECRET_CMD_READ ||
    c == SECRET_CMD_WRITE || c == SECRET_CMD_ERASE

/-- The classification step itself (see `is_cmd`). -/
def classify (q : Frame) : Option (Nat × Nat) :=
  if is_cmd (q 0) then some (0, q 0)
  else if is_cmd (q 1) then some (1, q 1)
  else none

/-- `memset(&data[1], 0, 31)`: zero bytes 1..31, keep byte 0. -/
def zeroTail (f : Frame) : Frame :=
  fun j => if 1 ≤ j ∧ j ≤ 31 then 0 else f j

/-- Result of one dispatcher invocation: the transport buffer as left by the
function, the flash contents, and the final `secret_busy` / `secret_abort`
flags. -/
structure DispatchOut where
  data : Frame
  flash : Flash
  busy : Bool
  abort : Bool

/-- The INFO response fill (lines 147-155): `p[1] = OK`, four big-endian u32
fields at `p[2]`, `p[6]`, `p[10]`, `p[14]`, then `p[18] = SECRET_MAX_READ`,
`p[19] = SECRET_MAX_WRITE`; `p[k]` is frame index `base + k`. -/
def info_fill (cfg : Cfg) (d : Frame) (base : Nat) : Frame :=
  upd (upd
    (write_u32_be
      (write_u32_be
        (write_u32_be
          (write_u32_be (upd d (base+1) SECRET_STATUS_OK)
            (base+2) cfg.storageSize)
          (base+6) cfg.totalFlash)
        (base+10) cfg.backingSize)
      (base+14) cfg.base)
    (base+18) SECRET_MAX_READ) (base+19) SECRET_MAX_WRITE

/-- The READ command handler (lines 163-189).  `d1` is the zeroed response
buffer, `req` the saved request copy.  All `uint32_t` sums that can wrap are
taken `% 2^32`, as executed by the C code.  Validation failures leave the
`secret_abort` flag at its entry value `abort0`; the read engine polls no
abort checks, so the dispatcher's final `if (secret_abort)` reads oracle
slot 0 (the flag was cleared just before the engine call). -/
def handle_read (cfg : Cfg) (abortAt : Nat → Bool) (flash : Flash)
    (busy0 abort0 : Bool) (d1 req : Frame) (base : Nat) : DispatchOut :=
  let offset := read_u32_be req (base+1)
  let size := req (base+5)
  if size = 0 ∨ SECRET_MAX_READ < size then
    ⟨upd d1 (base+1) SECRET_STATUS_ERR, flash, busy0, abort0⟩
  else if cfg.storageSize < (offset + size) % 4294967296 then
    ⟨upd d1 (base+1) SECRET_STATUS_RANGE, flash, busy0, abort0⟩
  else
    let dst := secret_read_bytes cfg flash offset
    let d2 : Frame := fun j =>
      if base+3 ≤ j ∧ j < base+3+size then dst (j - (base+3)) else d1 j
    if abortAt 0 then
      ⟨upd d2 (base+1) SECRET_STATUS_ABORT, flash, false, true⟩
    else
      ⟨upd (upd d2 (base+1) SECRET_STATUS_OK) (base+2) size, flash, false, false⟩

/-- The WRITE command handler (lines 191-216).  The payload is read from the
request copy at `r[6..6+size)`, i.e. frame indices `base+6 ..`. -/
def handle_write (cfg : Cfg) (abortAt : Nat → Bool) (flash : Flash)
    (busy0 abort0 : Bool) (d1 req : Frame) (base : Nat) : DispatchOut :=
  let offset := read_u32_be req (base+1)
  let size := req (base+5)
  if size = 0 ∨ SECRET_MAX_WRITE < size then
    ⟨upd d1 (base+1) SECRET_STATUS_ERR, flash, busy0, abort0⟩
  else if cfg.storageSize < (offset + size) % 4294967296 then
    ⟨upd d1 (base+1) SECRET_STATUS_RANGE, flash, busy0, abort0⟩
  else
    let src := fun i => req (base+6+i)
    let res := secret_write_bytes cfg abortAt flash offset src size
    if abortAt res.2.2 then
      ⟨upd d1 (base+1) SECRET_STATUS_ABORT, res.2.1, false, true⟩
    else
      ⟨upd d1 (base+1)
        (if res.1 then SECRET_STATUS_OK else SECRET_STATUS_ERR),
        res.2.1, false, false⟩

/-- The ERASE command handler (lines 218-247): `size` is a 4-byte big-endian
field; validation order is zero-size, range, alignment. -/
def handle_erase (cfg : Cfg) (abortAt : Nat → Bool) (flash : Flash)
    (busy0 abort0 : Bool) (d1 req : Frame) (base : Nat) : DispatchOut :=
  let offset := read_u32_be req (base+1)
  let size := read_u32_be req (base+5)
  if size = 0 then
    ⟨upd d1 (base+1) SECRET_STATUS_ERR, flash, busy0, abort0⟩
  else if cfg.storageSize < (offset + size) % 4294967296 then
    ⟨upd d1 (base+1) SECRET_STATUS_RANGE, flash, busy0, abort0⟩
  else if offset % cfg.sectorSize ≠ 0 ∨ size % cfg.sectorSize ≠ 0 then
    ⟨upd d1 (base+1) SECRET_STATUS_ALIGN, flash, busy0, abort0⟩
  else
    let res := secret_erase_range cfg abortAt flash offset size
    if abortAt res.2.2 then
      ⟨upd d1 (base+1) SECRET_STATUS_ABORT, res.2.1, false, true⟩
    else
      ⟨upd d1 (base+1)
        (if res.1 then SECRET_STATUS_OK else SECRET_STATUS_ERR),
        res.2.1, false, false⟩

/-- Response-buffer initialization (lines 141-145): `memset(&data[1], 0,
31)` and, when the report-ID framing was used, `data[0] = req[0]` (which
re-stores the byte the memset never touched). -/
def resp_init (req : Frame) (base : Nat) : Frame :=
  if base = 1 then upd (zeroTail req) 0 (req 0) else zeroTail req

/-- The dispatcher body after successful classification: zero the response
tail, echo the report-ID byte when `base = 1`, answer INFO before the busy
check, answer BUSY for the other commands while busy, then dispatch.  The C
function's final fall-through (a command that is none of the four, which
classification makes unreachable) returns with just the zeroed buffer. -/
def dispatch_cmd (cfg : Cfg) (abortAt : Nat → Bool) (busy0 abort0 : Bool)
    (flash : Flash) (req : Frame) (base cmd : Nat) : DispatchOut :=
  let d1 := resp_init req base
  if cmd = SECRET_CMD_INFO then
    ⟨info_fill cfg d1 base, flash, busy0, abort0⟩
  else if busy0 then
    ⟨upd d1 (base+1) SECRET_STATUS_BUSY, flash, busy0, abort0⟩
  else if cmd = SECRET_CMD_READ then
    handle_read cfg abortAt flash busy0 abort0 d1 req base
  else if cmd = SECRET_CMD_WRITE then
    handle_write cfg abortAt flash busy0 abort0 d1 req base
  else if cmd = SECRET_CMD_ERASE then
    handle_erase cfg abortAt flash busy0 abort0 d1 req base
  else
    ⟨d1, flash, busy0, abort0⟩

/-- `raw_hid_receive_kb(data, length)`: copy the frame (`req := data`),
classify at byte 0 then byte 1; on failure write the `0xFF` unhandled marker
into byte 0 and return; otherwise run `dispatch_cmd`. -/
def raw_hid_receive_kb (cfg : Cfg) (abortAt : Nat → Bool) (busy0 abort0 : Bool)
    (flash : Flash) (data : Frame) : DispatchOut :=
  let req := data
  match classify req with
  | none => ⟨upd data 0 0xFF, flash, busy0, abort0⟩
  | some (base, cmd) => dispatch_cmd cfg abortAt busy0 abort0 flash req base cmd

/-- Request-frame byte indices consumed by an accepted WRITE in framing
`base`: the offset field `r[1..5)`, the size byte `r[5]`, and the payload
`r[6..6+size)` passed to `secret_write_bytes` (`r` is `req + base`). -/
def write_req_indices (base size : Nat) : List Nat :=
  ((List.range 4).map (fun i => base + 1 + i)) ++ [base + 5] ++
    ((List.range size).map (fun i => base + 6 + i))

/-- Number of payload bytes committed by the first `t` iterations of the
`secret_write_bytes` loop starting at address `addr` with `length` bytes
remaining: each iteration commits
`chunk = min(FLASH_SECTOR_SIZE - addr % FLASH_SECTOR_SIZE, length)` bytes
and advances by the same wrapped `uint32_t` addition as the loop itself. -/
def committedW (cfg : Cfg) : Nat → Nat → Nat → Nat
  | _, _, 0 => 0
  | addr, length, t+1 =>
      let chunk := min (cfg.sectorSize - addr % cfg.sectorSize) length
      chunk + committedW cfg ((addr + chunk) % 4294967296) (length - chunk) t

/-- The example build geometry from the specification:
`storage_size = 4096`, `backing_size = 8192`,
`total_flash_size = 2097152` (2 MiB), RP2040 sector size 4096 and page size
256; `base = 2084864`. -/
def exampleCfg : Cfg where
  totalFlash := 2097152
  backingSize := 8192
  storageSize := 4096
  sectorSize := 4096
  pageSize := 256
  storage_pos := by decide
  storage_aligned := by decide
  backing_aligned := by decide
  base_aligned := by decide
  fits := by decide
  sector_pos := by decide
  page_pos := by decide
  page_dvd_sector := by decide
  sector_dvd := by decide
  total_le := by decide

/-- Build a frame from a list of bytes (indices past the list read 0). -/
def frameOf (l : List Nat) : Frame :=
  fun i => l.getD i 0

/-- Report-ID-prefixed WRITE request: byte 0 is the report ID `0x00` (not a
command code), byte 1 is `SECRET_CMD_WRITE`, offset 0, size 26,
payload `[1..26]`. -/
def qOobWrite : Frame :=
  frameOf ([0x00, 0xA2, 0, 0, 0, 0, 26] ++ (List.range 26).map (fun i => i + 1))

/-- Unprefixed READ request with `offset = 0xFFFFFFFF` and `size = 2`, whose
mathematical `offset + size` wraps modulo `2^32`. -/
def qWrapRead : Frame :=
  frameOf [0xA1, 0xFF, 0xFF, 0xFF, 0xFF, 2]

/-- Flash contents marking every byte strictly below the secret region base
of `exampleCfg` with `0xEE` and every byte at or above it with `0x33`; used
to make out-of-region reads observable. -/
def markedFlash : Flash :=
  fun a => if a < 2084864 then 0xEE else 0x33

/-- Unprefixed INFO request frame. -/
def qInfo : Frame := frameOf [0xA0]

/-- Unprefixed WRITE request: offset 0, size 26, payload `[0x01..0x1A]`
(the specification's round-trip example). -/
def qRt_write : Frame :=
  frameOf ([0xA2, 0, 0, 0, 0, 26] ++ (List.range 26).map (fun i => i + 1))

/-- Unprefixed READ request: offset 0, size 26 (the specification's
round-trip example). -/
def qRt_read : Frame := frameOf [0xA1, 0, 0, 0, 0, 26]

theorem upd_eq (f : Frame) (i v : Nat) : upd f i v i = v := by
  simp [upd]

theorem upd_ne (f : Frame) (i v j : Nat) (h : j ≠ i) : upd f i v j = f j := by
  simp [upd, h]

theorem read_u32_be_lt (q : Frame) (i : Nat)
    (h0 : q i < 256) (h1 : q (i+1) < 256) (h2 : q (i+2) < 256)
    (h3 : q (i+3) < 256) : read_u32_be q i < 4294967296 := by
  have e : (4294967296 : Nat) = 2 ^ 32 := by norm_num
  rw [read_u32_be, e]
  apply Nat.or_lt_two_pow
  · apply Nat.or_lt_two_pow
    · apply Nat.or_lt_two_pow
      · rw [Nat.shiftLeft_eq]; norm_num; omega
      · rw [Nat.shiftLeft_eq]; norm_num; omega
    · rw [Nat.shiftLeft_eq]; norm_num; omega
  · omega

theorem program_pages_apply (ss : Nat) (buf : Nat → Nat) (P : Nat) :
    ∀ (n i : Nat) (f : Flash) (a : Nat),
      program_pages ss buf P n i f a =
        if ss + i ≤ a ∧ a < ss + i + n * P then buf (a - ss) else f a := by
  intro n
  induction n with
  | zero =>
    intro i f a
    have h0 : ¬ (ss + i ≤ a ∧ a < ss + i + 0 * P) := by
      rw [Nat.zero_mul]; omega
    rw [if_neg h0]
    simp [program_pages]
  | succ n ih =>
    intro i f a
    have hmul : (n + 1) * P = n * P + P := Nat.succ_mul n P
    simp only [program_pages]
    rw [ih (i + P)]
    simp only [flash_range_program]
    by_cases hin : ss + i ≤ a ∧ a < ss + i + (n + 1) * P
    · rw [if_pos hin]
      by_cases h2 : ss + (i + P) ≤ a ∧ a < ss + (i + P) + n * P
      · rw [if_pos h2]
      · rw [if_neg h2]
        have hfr : ss + i ≤ a ∧ a < ss + i + P := by
          rw [hmul] at hin; omega
        rw [if_pos hfr]
        congr 1
        omega
    · rw [if_neg hin]
      have h2 : ¬ (ss + (i + P) ≤ a ∧ a < ss + (i + P) + n * P) := by
        rw [hmul] at hin; omega
      rw [if_neg h2]
      have h3 : ¬ (ss + i ≤ a ∧ a < ss + i + P) := by
        rw [hmul] at hin; omega
      rw [if_neg h3]

theorem sector_step_apply (cfg : Cfg) (f : Flash) (ss : Nat)
    (scratch : Nat → Nat) (a : Nat) :
    program_pages ss scratch cfg.pageSize (cfg.sectorSize / cfg.pageSize) 0
      (flash_range_erase f ss cfg.sectorSize) a =
    if ss ≤ a ∧ a < ss + cfg.sectorSize then scratch (a - ss) else f a := by
  rw [program_pages_apply]
  have hS : cfg.sectorSize / cfg.pageSize * cfg.pageSize = cfg.sectorSize :=
    Nat.div_mul_cancel cfg.page_dvd_sector
  rw [Nat.add_zero, hS]
  simp only [flash_range_erase]
  by_cases h : ss ≤ a ∧ a < ss + cfg.sectorSize
  · rw [if_pos h, if_pos h]
  · rw [if_neg h, if_neg h, if_neg h]

theorem write_go_apply (cfg : Cfg) (abortAt : Nat → Bool)
    (hab : ∀ j, abortAt j = false) :
    ∀ (fuel : Nat) (f : Flash) (addr : Nat) (src : Nat → Nat) (length k : Nat),
      length ≤ fuel → addr + length ≤ 4294967296 →
      (write_go cfg abortAt fuel f addr src length k).1 = true ∧
      ∀ a, (write_go cfg abortAt fuel f addr src length k).2.1 a =
        if addr ≤ a ∧ a < addr + length then src (a - addr) else f a := by
  intro fuel
  induction fuel with
  | zero =>
    intro f addr src length k hlen hnw
    have hz : length = 0 := Nat.le_zero.mp hlen
    subst hz
    refine ⟨rfl, fun a => ?_⟩
    have h0 : ¬ (addr ≤ a ∧ a < addr + 0) := by omega
    rw [if_neg h0]
    rfl
  | succ fuel ih =>
    intro f addr src length k hlen hnw
    cases length with
    | zero =>
      refine ⟨rfl, fun a => ?_⟩
      have h0 : ¬ (addr ≤ a ∧ a < addr + 0) := by omega
      rw [if_neg h0]
      rfl
    | succ l =>
      have hmod : addr % cfg.sectorSize < cfg.sectorSize :=
        Nat.mod_lt _ cfg.sector_pos
      have hmle : addr % cfg.sectorSize ≤ addr := Nat.mod_le _ _
      simp only [write_go, hab, Bool.false_eq_true, if_false]
      set S := cfg.sectorSize with hSdef
      set soff := addr % S with hsoffdef
      set ss := addr - soff with hssdef
      set chunk := min (S - soff) (l + 1) with hchunkdef
      have hchunk1 : 1 ≤ chunk := by omega
      have hchunkle : chunk ≤ l + 1 := by omega
      have hsector : addr + chunk ≤ ss + S := by omega
      have hrec := ih
        (program_pages ss
          (fun i => if soff ≤ i ∧ i < soff + chunk then src (i - soff)
            else f (ss + i))
          cfg.pageSize (S / cfg.pageSize) 0 (flash_range_erase f ss S))
        ((addr + chunk) % 4294967296) (fun i => src (i + chunk))
        (l + 1 - chunk) (k + 1)
        (by omega) (by omega)
      refine ⟨hrec.1, fun a => ?_⟩
      rw [hrec.2 a, sector_step_apply]
      by_cases hc1 : (addr + chunk) % 4294967296 ≤ a ∧
          a < (addr + chunk) % 4294967296 + (l + 1 - chunk)
      · rw [if_pos hc1]
        by_cases hrem : l + 1 - chunk = 0
        · exfalso
          omega
        · have hA : (addr + chunk) % 4294967296 = addr + chunk := by omega
          have hgoal : addr ≤ a ∧ a < addr + (l + 1) := by omega
          rw [if_pos hgoal]
          show src (a - ((addr + chunk) % 4294967296) + chunk) = src (a - addr)
          rw [hA]
          congr 1
          omega
      · rw [if_neg hc1]
        by_cases hc2 : ss ≤ a ∧ a < ss + S
        · rw [if_pos hc2]
          by_cases hc3 : soff ≤ a - ss ∧ a - ss < soff + chunk
          · rw [if_pos hc3]
            have hgoal : addr ≤ a ∧ a < addr + (l + 1) := by omega
            rw [if_pos hgoal]
            congr 1
            omega
          · rw [if_neg hc3]
            have hgoal : ¬ (addr ≤ a ∧ a < addr + (l + 1)) := by omega
            rw [if_neg hgoal]
            congr 1
            omega
        · rw [if_neg hc2]
          have hgoal : ¬ (addr ≤ a ∧ a < addr + (l + 1)) := by omega
          rw [if_neg hgoal]

theorem write_go_abort_apply (cfg : Cfg) (abortAt : Nat → Bool) :
    ∀ (t fuel : Nat) (f : Flash) (addr : Nat) (src : Nat → Nat) (length k0 : Nat),
      length ≤ fuel → addr + length ≤ 4294967296 →
      (∀ j, j < t → abortAt (k0 + j) = false) → abortAt (k0 + t) = true →
      committedW cfg addr length t < length →
      (write_go cfg abortAt fuel f addr src length k0).1 = false ∧
      (write_go cfg abortAt fuel f addr src length k0).2.2 = k0 + t + 1 ∧
      ∀ a, (write_go cfg abortAt fuel f addr src length k0).2.1 a =
        if addr ≤ a ∧ a < addr + committedW cfg addr length t
        then src (a - addr) else f a := by
  intro t
  induction t with
  | zero =>
    intro fuel f addr src length k0 hlen hnw hpre habt hcom
    cases length with
    | zero => exact absurd hcom (Nat.not_lt_zero _)
    | succ l =>
      cases fuel with
      | zero => omega
      | succ fuel' =>
        have h0 : abortAt k0 = true := by simpa using habt
        have hw : write_go cfg abortAt (fuel' + 1) f addr src (l + 1) k0 =
            (false, f, k0 + 1) := by
          simp [write_go, h0]
        rw [hw]
        refine ⟨rfl, rfl, fun a => ?_⟩
        have hz : committedW cfg addr (l + 1) 0 = 0 := rfl
        rw [hz]
        have h1 : ¬ (addr ≤ a ∧ a < addr + 0) := by omega
        rw [if_neg h1]
  | succ t ih =>
    intro fuel f addr src length k0 hlen hnw hpre habt hcom
    cases length with
    | zero => exact absurd hcom (Nat.not_lt_zero _)
    | succ l =>
      cases fuel with
      | zero => omega
      | succ fuel' =>
        have hmod : addr % cfg.sectorSize < cfg.sectorSize :=
          Nat.mod_lt _ cfg.sector_pos
        have hmle : addr % cfg.sectorSize ≤ addr := Nat.mod_le _ _
        have h0 : abortAt k0 = false := by simpa using hpre 0 (Nat.succ_pos t)
        simp only [write_go, h0, Bool.false_eq_true, if_false]
        simp only [committedW] at hcom ⊢
        set S := cfg.sectorSize with hSdef
        set soff := addr % S with hsoffdef
        set ss := addr - soff with hssdef
        set chunk := min (S - soff) (l + 1) with hchunkdef
        have hchunk1 : 1 ≤ chunk := by omega
        have hchunkle : chunk ≤ l + 1 := by omega
        have hsector : addr + chunk ≤ ss + S := by omega
        have hchunklt : chunk < l + 1 := by omega
        have hA : (addr + chunk) % 4294967296 = addr + chunk := by omega
        simp only [hA] at hcom ⊢
        have hrec := ih fuel'
          (program_pages ss
            (fun i => if soff ≤ i ∧ i < soff + chunk then src (i - soff)
              else f (ss + i))
            cfg.pageSize (S / cfg.pageSize) 0 (flash_range_erase f ss S))
          (addr + chunk) (fun i => src (i + chunk)) (l + 1 - chunk) (k0 + 1)
          (by omega) (by omega)
          (fun j hj => by
            have := hpre (j + 1) (by omega)
            simpa [Nat.add_assoc, Nat.add_comm 1 j] using this)
          (by
            have : k0 + 1 + t = k0 + (t + 1) := by omega
            rw [this]; exact habt)
          (by omega)
        refine ⟨hrec.1, by rw [hrec.2.1]; omega, fun a => ?_⟩
        rw [hrec.2.2 a, sector_step_apply]
        set c' := committedW cfg (addr + chunk) (l + 1 - chunk) t with hcdef
        by_cases hc1 : addr + chunk ≤ a ∧ a < addr + chunk + c'
        · rw [if_pos hc1]
          have hgoal : addr ≤ a ∧ a < addr + (chunk + c') := by omega
          rw [if_pos hgoal]
          show src (a - (addr + chunk) + chunk) = src (a - addr)
          congr 1
          omega
        · rw [if_neg hc1]
          by_cases hc2 : ss ≤ a ∧ a < ss + S
          · rw [if_pos hc2]
            by_cases hc3 : soff ≤ a - ss ∧ a - ss < soff + chunk
            · rw [if_pos hc3]
              have hgoal : addr ≤ a ∧ a < addr + (chunk + c') := by omega
              rw [if_pos hgoal]
              congr 1
              omega
            · rw [if_neg hc3]
              have hgoal : ¬ (addr ≤ a ∧ a < addr + (chunk + c')) := by omega
              rw [if_neg hgoal]
              congr 1
              omega
          · rw [if_neg hc2]
            have hgoal : ¬ (addr ≤ a ∧ a < addr + (chunk + c')) := by omega
            rw [if_neg hgoal]

theorem erase_loop_abort_apply (cfg : Cfg) (abortAt : Nat → Bool) :
    ∀ (t n : Nat) (f : Flash) (addr k0 : Nat),
      t < n →
      (∀ j, j < t → abortAt (k0 + j) = false) → abortAt (k0 + t) = true →
      (erase_loop cfg abortAt n f addr k0).1 = false ∧
      (erase_loop cfg abortAt n f addr k0).2.2 = k0 + t + 1 ∧
      ∀ a, (erase_loop cfg abortAt n f addr k0).2.1 a =
        if addr ≤ a ∧ a < addr + t * cfg.sectorSize then 0xFF else f a := by
  intro t
  induction t with
  | zero =>
    intro n f addr k0 htn hpre habt
    cases n with
    | zero => omega
    | succ m =>
      have h0 : abortAt k0 = true := by simpa using habt
      have hw : erase_loop cfg abortAt (m + 1) f addr k0 = (false, f, k0 + 1) := by
        simp [erase_loop, h0]
      rw [hw]
      refine ⟨rfl, rfl, fun a => ?_⟩
      have h1 : ¬ (addr ≤ a ∧ a < addr + 0 * cfg.sectorSize) := by
        rw [Nat.zero_mul]; omega
      rw [if_neg h1]
  | succ t ih =>
    intro n f addr k0 htn hpre habt
    cases n with
    | zero => omega
    | succ m =>
      have h0 : abortAt k0 = false := by simpa using hpre 0 (Nat.succ_pos t)
      simp only [erase_loop, h0, Bool.false_eq_true, if_false]
      have hrec := ih m (flash_range_erase f addr cfg.sectorSize)
        (addr + cfg.sectorSize) (k0 + 1)
        (by omega)
        (fun j hj => by
          have := hpre (j + 1) (by omega)
          simpa [Nat.add_assoc, Nat.add_comm 1 j] using this)
        (by
          have : k0 + 1 + t = k0 + (t + 1) := by omega
          rw [this]; exact habt)
      refine ⟨hrec.1, by rw [hrec.2.1]; omega, fun a => ?_⟩
      rw [hrec.2.2 a]
      simp only [flash_range_erase]
      have hmul : (t + 1) * cfg.sectorSize = t * cfg.sectorSize + cfg.sectorSize :=
        Nat.succ_mul t cfg.sectorSize
      by_cases hc1 : addr + cfg.sectorSize ≤ a ∧
          a < addr + cfg.sectorSize + t * cfg.sectorSize
      · rw [if_pos hc1]
        have hgoal : addr ≤ a ∧ a < addr + (t + 1) * cfg.sectorSize := by
          rw [hmul]; omega
        rw [if_pos hgoal]
      · rw [if_neg hc1]
        by_cases hc2 : addr ≤ a ∧ a < addr + cfg.sectorSize
        · rw [if_pos hc2]
          have hgoal : addr ≤ a ∧ a < addr + (t + 1) * cfg.sectorSize := by
            rw [hmul]; omega
          rw [if_pos hgoal]
        · rw [if_neg hc2]
          have hgoal : ¬ (addr ≤ a ∧ a < addr + (t + 1) * cfg.sectorSize) := by
            rw [hmul]; omega
          rw [if_neg hgoal]

theorem raw_hid_eq_dispatch (cfg : Cfg) (abortAt : Nat → Bool)
    (busy0 abort0 : Bool) (flash : Flash) (q : Frame) (base cmd : Nat)
    (hc : classify q = some (base, cmd)) :
    raw_hid_receive_kb cfg abortAt busy0 abort0 flash q =
      dispatch_cmd cfg abortAt busy0 abort0 flash q base cmd := by
  simp [raw_hid_receive_kb, hc]

theorem classify_cases (q : Frame) (base cmd : Nat)
    (hc : classify q = some (base, cmd)) :
    (base = 0 ∧ cmd = q 0 ∧ is_cmd (q 0) = true) ∨
    (base = 1 ∧ cmd = q 1 ∧ is_cmd (q 0) = false ∧ is_cmd (q 1) = true) := by
  unfold classify at hc
  by_cases h0 : is_cmd (q 0)
  · rw [if_pos h0] at hc
    simp only [Option.some.injEq, Prod.mk.injEq] at hc
    exact Or.inl ⟨hc.1.symm, hc.2.symm, h0⟩
  · rw [if_neg h0] at hc
    by_cases h1 : is_cmd (q 1)
    · rw [if_pos h1] at hc
      simp only [Option.some.injEq, Prod.mk.injEq] at hc
      exact Or.inr ⟨hc.1.symm, hc.2.symm, by simpa using h0, h1⟩
    · rw [if_neg h1] at hc
      exact absurd hc (by simp)

theorem handle_write_ok (cfg : Cfg) (abortAt : Nat → Bool)
    (hab : ∀ j, abortAt j = false) (flash : Flash) (abort0 : Bool)
    (d1 q : Frame) (base : Nat)
    (hsz1 : 1 ≤ q (base+5)) (hsz2 : q (base+5) ≤ SECRET_MAX_WRITE)
    (hrange : read_u32_be q (base+1) + q (base+5) ≤ cfg.storageSize) :
    (handle_write cfg abortAt flash false abort0 d1 q base).data =
      upd d1 (base+1) SECRET_STATUS_OK ∧
    (handle_write cfg abortAt flash false abort0 d1 q base).busy = false ∧
    (handle_write cfg abortAt flash false abort0 d1 q base).abort = false ∧
    ∀ a, (handle_write cfg abortAt flash false abort0 d1 q base).flash a =
      if cfg.base + read_u32_be q (base+1) ≤ a ∧
          a < cfg.base + read_u32_be q (base+1) + q (base+5)
      then q (base+6+(a - (cfg.base + read_u32_be q (base+1))))
      else flash a := by
  have hf := cfg.fits
  have ht := cfg.total_le
  have hsz2l : q (base+5) ≤ 26 := hsz2
  have hbdef : cfg.base = cfg.totalFlash - cfg.backingSize - cfg.storageSize := rfl
  have hmod := Nat.mod_le (read_u32_be q (base+1) + q (base+5)) 4294967296
  have haddr : secret_flash_offset cfg (read_u32_be q (base+1)) =
      cfg.base + read_u32_be q (base+1) := by
    unfold secret_flash_offset
    apply Nat.mod_eq_of_lt
    omega
  have heng := write_go_apply cfg abortAt hab (q (base+5)) flash
    (secret_flash_offset cfg (read_u32_be q (base+1)))
    (fun i => q (base+6+i)) (q (base+5)) 0 (le_refl _)
    (by rw [haddr]; omega)
  have hout : handle_write cfg abortAt flash false abort0 d1 q base =
      ⟨upd d1 (base+1)
        (if (secret_write_bytes cfg abortAt flash (read_u32_be q (base+1))
              (fun i => q (base+6+i)) (q (base+5))).1
          then SECRET_STATUS_OK else SECRET_STATUS_ERR),
        (secret_write_bytes cfg abortAt flash (read_u32_be q (base+1))
          (fun i => q (base+6+i)) (q (base+5))).2.1, false, false⟩ := by
    simp only [handle_write]
    rw [if_neg (by simp only [SECRET_MAX_WRITE]; omega)]
    rw [if_neg (by omega)]
    simp only [hab, Bool.false_eq_true, if_false]
  rw [haddr] at heng
  rw [hout]
  refine ⟨?_, rfl, rfl, fun a => ?_⟩
  · simp only [secret_write_bytes, haddr, heng.1, if_true]
  · simp only [secret_write_bytes, haddr, heng.2 a]

theorem handle_read_ok (cfg : Cfg) (abortAt : Nat → Bool)
    (hab : ∀ j, abortAt j = false) (flash : Flash) (abort0 : Bool)
    (d1 q : Frame) (base : Nat)
    (hsz1 : 1 ≤ q (base+5)) (hsz2 : q (base+5) ≤ SECRET_MAX_READ)
    (hrange : read_u32_be q (base+1) + q (base+5) ≤ cfg.storageSize) :
    (handle_read cfg abortAt flash false abort0 d1 q base).busy = false ∧
    (handle_read cfg abortAt flash false abort0 d1 q base).abort = false ∧
    (handle_read cfg abortAt flash false abort0 d1 q base).flash = flash ∧
    (handle_read cfg abortAt flash false abort0 d1 q base).data (base+1) =
      SECRET_STATUS_OK ∧
    (handle_read cfg abortAt flash false abort0 d1 q base).data (base+2) =
      q (base+5) ∧
    ∀ i, i < q (base+5) →
      (handle_read cfg abortAt flash false abort0 d1 q base).data (base+3+i) =
        flash (cfg.base + read_u32_be q (base+1) + i) := by
  have hf := cfg.fits
  have ht := cfg.total_le
  have hsz2l : q (base+5) ≤ 28 := hsz2
  have hbdef : cfg.base = cfg.totalFlash - cfg.backingSize - cfg.storageSize := rfl
  have hmod := Nat.mod_le (read_u32_be q (base+1) + q (base+5)) 4294967296
  have haddr : secret_flash_offset cfg (read_u32_be q (base+1)) =
      cfg.base + read_u32_be q (base+1) := by
    unfold secret_flash_offset
    apply Nat.mod_eq_of_lt
    omega
  have hout : handle_read cfg abortAt flash false abort0 d1 q base =
      ⟨upd (upd (fun j => if base+3 ≤ j ∧ j < base+3+q (base+5)
          then secret_read_bytes cfg flash (read_u32_be q (base+1)) (j - (base+3))
          else d1 j) (base+1) SECRET_STATUS_OK) (base+2) (q (base+5)),
        flash, false, false⟩ := by
    simp only [handle_read]
    rw [if_neg (by simp only [SECRET_MAX_READ]; omega)]
    rw [if_neg (by omega)]
    simp only [hab, Bool.false_eq_true, if_false]
  have hdata := congrArg DispatchOut.data hout
  refine ⟨by rw [hout], by rw [hout], by rw [hout], ?_, ?_, fun i hi => ?_⟩
  · rw [hdata]
    show upd (upd _ (base+1) SECRET_STATUS_OK) (base+2) (q (base+5)) (base+1) = _
    rw [upd_ne _ _ _ _ (by omega), upd_eq]
  · rw [hdata]
    show upd (upd _ (base+1) SECRET_STATUS_OK) (base+2) (q (base+5)) (base+2) = _
    rw [upd_eq]
  · rw [hdata]
    show upd (upd _ (base+1) SECRET_STATUS_OK) (base+2) (q (base+5)) (base+3+i) = _
    rw [upd_ne _ _ _ _ (by omega), upd_ne _ _ _ _ (by omega)]
    have hin : base+3 ≤ base+3+i ∧ base+3+i < base+3+q (base+5) := by omega
    rw [if_pos hin]
    show flash (secret_flash_offset cfg (read_u32_be q (base+1)) +
      (base+3+i - (base+3))) = _
    rw [haddr]
    congr 1
    omega

theorem dispatch_read_eq (cfg : Cfg) (abortAt : Nat → Bool) (abort0 : Bool)
    (flash : Flash) (q : Frame) (base : Nat) :
    dispatch_cmd cfg abortAt false abort0 flash q base SECRET_CMD_READ =
      handle_read cfg abortAt flash false abort0 (resp_init q base) q base := by
  simp [dispatch_cmd, SECRET_CMD_READ, SECRET_CMD_INFO]

theorem dispatch_write_eq (cfg : Cfg) (abortAt : Nat → Bool) (abort0 : Bool)
    (flash : Flash) (q : Frame) (base : Nat) :
    dispatch_cmd cfg abortAt false abort0 flash q base SECRET_CMD_WRITE =
      handle_write cfg abortAt flash false abort0 (resp_init q base) q base := by
  simp [dispatch_cmd, SECRET_CMD_WRITE, SECRET_CMD_INFO, SECRET_CMD_READ]

theorem dispatch_erase_eq (cfg : Cfg) (abortAt : Nat → Bool) (abort0 : Bool)
    (flash : Flash) (q : Frame) (base : Nat) :
    dispatch_cmd cfg abortAt false abort0 flash q base SECRET_CMD_ERASE =
      handle_erase cfg abortAt flash false abort0 (resp_init q base) q base := by
  simp [dispatch_cmd, SECRET_CMD_ERASE, SECRET_CMD_INFO, SECRET_CMD_READ,
    SECRET_CMD_WRITE]

theorem classify_mem (q : Frame) (base cmd : Nat)
    (hc : classify q = some (base, cmd)) :
    cmd = SECRET_CMD_INFO ∨ cmd = SECRET_CMD_READ ∨
    cmd = SECRET_CMD_WRITE ∨ cmd = SECRET_CMD_ERASE := by
  rcases classify_cases q base cmd hc with ⟨_, hcmd, hic⟩ | ⟨_, hcmd, _, hic⟩ <;>
    subst hcmd <;>
    simpa [is_cmd, SECRET_CMD_INFO, SECRET_CMD_READ, SECRET_CMD_WRITE,
      SECRET_CMD_ERASE, or_assoc] using hic

/-- C4: Round-trip — for every `N` with `1 ≤ N ≤ 26` (`N` being the size
byte of the WRITE frame) and every in-range offset (`offset + N ≤
region.size`), a WRITE of `N` payload bytes with no abort requested followed
by a READ of `N` bytes at the same offset returns status `OK` for both
requests, and the read payload (response bytes `[3 .. 3+N)` relative to the
command byte) equals the written payload (request bytes `[6 .. 6+N)`). -/
theorem C4_roundtrip (cfg : Cfg) (flash : Flash) (qw qr : Frame)
    (hw0 : qw 0 = SECRET_CMD_WRITE) (hr0 : qr 0 = SECRET_CMD_READ)
    (hoff : ∀ i, 1 ≤ i → i ≤ 4 → qr i = qw i) (hsz : qr 5 = qw 5)
    (hN1 : 1 ≤ qw 5) (hN26 : qw 5 ≤ SECRET_MAX_WRITE)
    (hinr : read_u32_be qw 1 + qw 5 ≤ cfg.storageSize) :
    (raw_hid_receive_kb cfg (fun _ => false) false false flash qw).data 1 =
      SECRET_STATUS_OK ∧
    (raw_hid_receive_kb cfg (fun _ => false)
      (raw_hid_receive_kb cfg (fun _ => false) false false flash qw).busy
      (raw_hid_receive_kb cfg (fun _ => false) false false flash qw).abort
      (raw_hid_receive_kb cfg (fun _ => false) false false flash qw).flash
      qr).data 1 = SECRET_STATUS_OK ∧
    (raw_hid_receive_kb cfg (fun _ => false)
      (raw_hid_receive_kb cfg (fun _ => false) false false flash qw).busy
      (raw_hid_receive_kb cfg (fun _ => false) false false flash qw).abort
      (raw_hid_receive_kb cfg (fun _ => false) false false flash qw).flash
      qr).data 2 = qw 5 ∧
    ∀ i, i < qw 5 →
      (raw_hid_receive_kb cfg (fun _ => false)
        (raw_hid_receive_kb cfg (fun _ => false) false false flash qw).busy
        (raw_hid_receive_kb cfg (fun _ => false) false false flash qw).abort
        (raw_hid_receive_kb cfg (fun _ => false) false false flash qw).flash
        qr).data (3+i) = qw (6+i) := by
  have hab : ∀ j, (fun _ : Nat => false) j = false := fun _ => rfl
  have hcw : classify qw = some (0, SECRET_CMD_WRITE) := by
    simp [classify, is_cmd, hw0, SECRET_CMD_WRITE, SECRET_CMD_INFO,
      SECRET_CMD_READ, SECRET_CMD_ERASE]
  have hcr : classify qr = some (0, SECRET_CMD_READ) := by
    simp [classify, is_cmd, hr0, SECRET_CMD_WRITE, SECRET_CMD_INFO,
      SECRET_CMD_READ, SECRET_CMD_ERASE]
  have hww := handle_write_ok cfg (fun _ => false) hab flash false
    (resp_init qw 0) qw 0 hN1 hN26 hinr
  have hst1 : raw_hid_receive_kb cfg (fun _ => false) false false flash qw =
      handle_write cfg (fun _ => false) flash false false (resp_init qw 0) qw 0 := by
    rw [raw_hid_eq_dispatch cfg (fun _ => false) false false flash qw 0
      SECRET_CMD_WRITE hcw, dispatch_write_eq]
  rw [hst1]
  have hoffeq : read_u32_be qr 1 = read_u32_be qw 1 := by
    unfold read_u32_be
    rw [hoff 1 (by omega) (by omega), hoff 2 (by omega) (by omega),
      hoff 3 (by omega) (by omega), hoff 4 (by omega) (by omega)]
  have hrr := handle_read_ok cfg (fun _ => false) hab
    (handle_write cfg (fun _ => false) flash false false (resp_init qw 0) qw 0).flash
    false (resp_init qr 0) qr 0
    (by rw [show (0:Nat)+5 = 5 from rfl, hsz]; exact hN1)
    (by rw [show (0:Nat)+5 = 5 from rfl, hsz]
        exact le_trans hN26 (by norm_num [SECRET_MAX_WRITE, SECRET_MAX_READ]))
    (by rw [show (0:Nat)+5 = 5 from rfl, show (0:Nat)+1 = 1 from rfl, hsz, hoffeq]
        exact hinr)
  have hst2 : raw_hid_receive_kb cfg (fun _ => false)
      (handle_write cfg (fun _ => false) flash false false (resp_init qw 0) qw 0).busy
      (handle_write cfg (fun _ => false) flash false false (resp_init qw 0) qw 0).abort
      (handle_write cfg (fun _ => false) flash false false (resp_init qw 0) qw 0).flash
      qr =
      handle_read cfg (fun _ => false)
        (handle_write cfg (fun _ => false) flash false false (resp_init qw 0) qw 0).flash
        false false (resp_init qr 0) qr 0 := by
    rw [hww.2.1, hww.2.2.1]
    rw [raw_hid_eq_dispatch cfg (fun _ => false) false false _ qr 0
      SECRET_CMD_READ hcr, dispatch_read_eq]
  rw [hst2]
  refine ⟨?_, ?_, ?_, fun i hi => ?_⟩
  · rw [hww.1]
    exact upd_eq _ _ _
  · exact hrr.2.2.2.1
  · rw [hrr.2.2.2.2.1]
    rw [show (0:Nat)+5 = 5 from rfl, hsz]
  · have h3 := hrr.2.2.2.2.2 i (by rw [show (0:Nat)+5 = 5 from rfl, hsz]; exact hi)
    rw [show (0:Nat)+3+i = 3+i from rfl] at h3
    rw [h3]
    have h4 := hww.2.2.2 (cfg.base + read_u32_be qr (0+1) + i)
    simp only [Nat.zero_add] at h4
    rw [hoffeq] at h4
    rw [show (0:Nat)+1 = 1 from rfl, hoffeq]
    rw [h4, if_pos (by constructor <;> omega)]
    congr 1
    omega

/-- Witness for C4: the specification's round-trip example (WRITE
`offset=0, size=26, payload=[0x01..0x1A]`, then READ `offset=0, size=26`,
under the example geometry) — both statuses `OK`, the echoed size is 26,
and the first and last payload bytes read back as written. -/
theorem C4_roundtrip_witness :
    (raw_hid_receive_kb exampleCfg (fun _ => false) false false (fun _ => 0)
      qRt_write).data 1 = SECRET_STATUS_OK ∧
    (raw_hid_receive_kb exampleCfg (fun _ => false)
      (raw_hid_receive_kb exampleCfg (fun _ => false) false false (fun _ => 0)
        qRt_write).busy
      (raw_hid_receive_kb exampleCfg (fun _ => false) false false (fun _ => 0)
        qRt_write).abort
      (raw_hid_receive_kb exampleCfg (fun _ => false) false false (fun _ => 0)
        qRt_write).flash
      qRt_read).data 1 = SECRET_STATUS_OK ∧
    (raw_hid_receive_kb exampleCfg (fun _ => false)
      (raw_hid_receive_kb exampleCfg (fun _ => false) false false (fun _ => 0)
        qRt_write).busy
      (raw_hid_receive_kb exampleCfg (fun _ => false) false false (fun _ => 0)
        qRt_write).abort
      (raw_hid_receive_kb exampleCfg (fun _ => false) false false (fun _ => 0)
        qRt_write).flash
      qRt_read).data 2 = 26 ∧
    (raw_hid_receive_kb exampleCfg (fun _ => false)
      (raw_hid_receive_kb exampleCfg (fun _ => false) false false (fun _ => 0)
        qRt_write).busy
      (raw_hid_receive_kb exampleCfg (fun _ => false) false false (fun _ => 0)
        qRt_write).abort
      (raw_hid_receive_kb exampleCfg (fun _ => false) false false (fun _ => 0)
        qRt_write).flash
      qRt_read).data 3 = 1 ∧
    (raw_hid_receive_kb exampleCfg (fun _ => false)
      (raw_hid_receive_kb exampleCfg (fun _ => false) false false (fun _ => 0)
        qRt_write).busy
      (raw_hid_receive_kb exampleCfg (fun _ => false) false false (fun _ => 0)
        qRt_write).abort
      (raw_hid_receive_kb exampleCfg (fun _ => false) false false (fun _ => 0)
        qRt_write).flash
      qRt_read).data 28 = 26 := by
  have h := C4_roundtrip exampleCfg (fun _ => 0) qRt_write qRt_read rfl rfl
    (by intro i h1 h2; interval_cases i <;> rfl) rfl (by decide) (by decide)
    (by decide)
  refine ⟨h.1, h.2.1, ?_, ?_, ?_⟩
  · rw [h.2.2.1]
    decide
  · have h0 := h.2.2.2 0 (by decide)
    simp only [Nat.add_zero] at h0
    rw [h0]
    decide
  · have h25 := h.2.2.2 25 (by decide)
    norm_num at h25
    rw [h25]
    decide

/-- C3 (amended): for every INFO request, including one received while
busy and in either framing, the response at offsets relative to the command
byte (the command byte occupying offset 0, as in the other frame layouts)
is `[1]=OK, [2..6)=storage_size u32BE, [6..10)=total_flash_size u32BE,
[10..14)=backing_size u32BE, [14..18)=storage_base u32BE, [18]=max_read=28,
[19]=max_write=26`, with field values equal to the build-time constants. -/
theorem C3_info_layout (cfg : Cfg) (abortAt : Nat → Bool) (busy0 abort0 : Bool)
    (flash : Flash) (q : Frame) (base : Nat)
    (hc : classify q = some (base, SECRET_CMD_INFO)) :
    (raw_hid_receive_kb cfg abortAt busy0 abort0 flash q).data (base+1) =
      SECRET_STATUS_OK ∧
    (raw_hid_receive_kb cfg abortAt busy0 abort0 flash q).data (base+2) =
      (cfg.storageSize >>> 24) % 256 ∧
    (raw_hid_receive_kb cfg abortAt busy0 abort0 flash q).data (base+3) =
      (cfg.storageSize >>> 16) % 256 ∧
    (raw_hid_receive_kb cfg abortAt busy0 abort0 flash q).data (base+4) =
      (cfg.storageSize >>> 8) % 256 ∧
    (raw_hid_receive_kb cfg abortAt busy0 abort0 flash q).data (base+5) =
      cfg.storageSize % 256 ∧
    (raw_hid_receive_kb cfg abortAt busy0 abort0 flash q).data (base+6) =
      (cfg.totalFlash >>> 24) % 256 ∧
    (raw_hid_receive_kb cfg abortAt busy0 abort0 flash q).data (base+7) =
      (cfg.totalFlash >>> 16) % 256 ∧
    (raw_hid_receive_kb cfg abortAt busy0 abort0 flash q).data (base+8) =
      (cfg.totalFlash >>> 8) % 256 ∧
    (raw_hid_receive_kb cfg abortAt busy0 abort0 flash q).data (base+9) =
      cfg.totalFlash % 256 ∧
    (raw_hid_receive_kb cfg abortAt busy0 abort0 flash q).data (base+10) =
      (cfg.backingSize >>> 24) % 256 ∧
    (raw_hid_receive_kb cfg abortAt busy0 abort0 flash q).data (base+11) =
      (cfg.backingSize >>> 16) % 256 ∧
    (raw_hid_receive_kb cfg abortAt busy0 abort0 flash q).data (base+12) =
      (cfg.backingSize >>> 8) % 256 ∧
    (raw_hid_receive_kb cfg abortAt busy0 abort0 flash q).data (base+13) =
      cfg.backingSize % 256 ∧
    (raw_hid_receive_kb cfg abortAt busy0 abort0 flash q).data (base+14) =
      (cfg.base >>> 24) % 256 ∧
    (raw_hid_receive_kb cfg abortAt busy0 abort0 flash q).data (base+15) =
      (cfg.base >>> 16) % 256 ∧
    (raw_hid_receive_kb cfg abortAt busy0 abort0 flash q).data (base+16) =
      (cfg.base >>> 8) % 256 ∧
    (raw_hid_receive_kb cfg abortAt busy0 abort0 flash q).data (base+17) =
      cfg.base % 256 ∧
    (raw_hid_receive_kb cfg abortAt busy0 abort0 flash q).data (base+18) =
      SECRET_MAX_READ ∧
    (raw_hid_receive_kb cfg abortAt busy0 abort0 flash q).data (base+19) =
      SECRET_MAX_WRITE := by
  rw [raw_hid_eq_dispatch cfg abortAt busy0 abort0 flash q base SECRET_CMD_INFO hc]
  have hinfo : dispatch_cmd cfg abortAt busy0 abort0 flash q base SECRET_CMD_INFO =
      ⟨info_fill cfg (resp_init q base) base, flash, busy0, abort0⟩ := by
    simp [dispatch_cmd]
  rw [hinfo]
  simp only [info_fill, write_u32_be]
  refine ⟨?_, ?_, ?_, ?_, ?_, ?_, ?_, ?_, ?_, ?_, ?_, ?_, ?_, ?_, ?_, ?_, ?_,
    ?_, ?_⟩ <;>
    simp [upd]

/-- C3 counterexample: for the concrete unprefixed INFO request
`[0xA0, 0, ...]` under the example geometry, the response does NOT satisfy
the claimed layout "[0]=OK, ..., [17]=max_read, [18]=max_write" at offsets
relative to the command byte: byte 0 still holds the request byte `0xA0`
(the dispatcher never stores the status there), and byte 17 holds the low
byte of `storage_base`, not `max_read` — the whole layout sits one byte
later. -/
theorem C3_counterexample :
    ¬ ((raw_hid_receive_kb exampleCfg (fun _ => false) false false (fun _ => 0)
        qInfo).data 0 = SECRET_STATUS_OK ∧
       (raw_hid_receive_kb exampleCfg (fun _ => false) false false (fun _ => 0)
        qInfo).data 17 = SECRET_MAX_READ ∧
       (raw_hid_receive_kb exampleCfg (fun _ => false) false false (fun _ => 0)
        qInfo).data 18 = SECRET_MAX_WRITE) := by
  decide

/-- Witness for C3: a report-ID-prefixed INFO request received while busy is
still answered; with the example geometry the status `OK` sits at frame
index 2 (offset 1 after the command byte at index 1), `max_read = 28` at
frame index 19 (offset 18) and `max_write = 26` at frame index 20
(offset 19). -/
theorem C3_info_layout_witness :
    (raw_hid_receive_kb exampleCfg (fun _ => false) true false (fun _ => 0)
      (frameOf [0x07, 0xA0])).data 2 = SECRET_STATUS_OK ∧
    (raw_hid_receive_kb exampleCfg (fun _ => false) true false (fun _ => 0)
      (frameOf [0x07, 0xA0])).data 19 = SECRET_MAX_READ ∧
    (raw_hid_receive_kb exampleCfg (fun _ => false) true false (fun _ => 0)
      (frameOf [0x07, 0xA0])).data 20 = SECRET_MAX_WRITE := by
  have h := C3_info_layout exampleCfg (fun _ => false) true false (fun _ => 0)
    (frameOf [0x07, 0xA0]) 1 (by decide)
  exact ⟨h.1, h.2.2.2.2.2.2.2.2.2.2.2.2.2.2.2.2.2.1, h.2.2.2.2.2.2.2.2.2.2.2.2.2.2.2.2.2.2⟩

/-- C1 (code bug): the report-ID-prefixed WRITE request `qOobWrite`
(report ID `0x00`, command `0xA2`, offset 0, size 26) is classified as
prefixed and accepted (status `OK`), and the payload bytes it consumes are
the request-frame indices `base+6 .. base+6+25 = 7 .. 32`: index 32 lies
one past the last valid index 31 of the 32-byte `req` copy, refuting the
claim that all payload reads stay within the frame. -/
theorem C1_oob_write :
    classify qOobWrite = some (1, SECRET_CMD_WRITE) ∧
    (raw_hid_receive_kb exampleCfg (fun _ => false) false false (fun _ => 0)
      qOobWrite).data 2 = SECRET_STATUS_OK ∧
    32 ∈ write_req_indices 1 26 ∧
    ¬ (∀ i ∈ write_req_indices 1 26, i ≤ 31) := by
  refine ⟨by decide, by decide, by decide, by decide⟩

/-- C2 (code bug): the READ request `qWrapRead` has `offset = 0xFFFFFFFF`
and `size = 2`, so the mathematical sum `offset + size = 2^32 + 1` exceeds
`region.size = 4096`; yet the dispatcher's `uint32_t` sum wraps to 1, the
range check passes, the response status is `OK` (not `RANGE`), and the
engine reads flash at the wrapped address 2084863 — one byte BELOW the
secret region base, as witnessed by the marker byte `0xEE` returned in the
payload. -/
theorem C2_wrap_read :
    read_u32_be qWrapRead 1 + qWrapRead 5 = 4294967297 ∧
    exampleCfg.storageSize = 4096 ∧
    (read_u32_be qWrapRead 1 + qWrapRead 5) % 4294967296 = 1 ∧
    (raw_hid_receive_kb exampleCfg (fun _ => false) false false markedFlash
      qWrapRead).data 1 = SECRET_STATUS_OK ∧
    (raw_hid_receive_kb exampleCfg (fun _ => false) false false markedFlash
      qWrapRead).data 3 = 0xEE := by
  refine ⟨by decide, by decide, by decide, by decide, by decide⟩

theorem handle_read_busy (cfg : Cfg) (abortAt : Nat → Bool) (flash : Flash)
    (abort0 : Bool) (d1 q : Frame) (base : Nat) :
    (handle_read cfg abortAt flash false abort0 d1 q base).busy = false := by
  simp only [handle_read]
  split_ifs <;> rfl

theorem handle_write_busy (cfg : Cfg) (abortAt : Nat → Bool) (flash : Flash)
    (abort0 : Bool) (d1 q : Frame) (base : Nat) :
    (handle_write cfg abortAt flash false abort0 d1 q base).busy = false := by
  simp only [handle_write]
  split_ifs <;> rfl

theorem handle_erase_busy (cfg : Cfg) (abortAt : Nat → Bool) (flash : Flash)
    (abort0 : Bool) (d1 q : Frame) (base : Nat) :
    (handle_erase cfg abortAt flash false abort0 d1 q base).busy = false := by
  simp only [handle_erase]
  split_ifs <;> rfl

/-- C9 (implicit invariant): every invocation of `raw_hid_receive_kb` that
begins with `busy = false` returns with `busy = false`, on every path
(unrecognized command, INFO, every validation failure, engine success,
engine failure, and abort); `busy` is raised and cleared only around the
single engine call inside the invocation. -/
theorem C9_busy_restored (cfg : Cfg) (abortAt : Nat → Bool) (abort0 : Bool)
    (flash : Flash) (q : Frame) :
    (raw_hid_receive_kb cfg abortAt false abort0 flash q).busy = false := by
  cases hcq : classify q with
  | none => simp [raw_hid_receive_kb, hcq]
  | some bc =>
    obtain ⟨base, cmd⟩ := bc
    rw [raw_hid_eq_dispatch cfg abortAt false abort0 flash q base cmd hcq]
    simp only [dispatch_cmd]
    split_ifs <;>
      first
        | rfl
        | exact handle_read_busy cfg abortAt flash abort0 (resp_init q base) q base
        | exact handle_write_busy cfg abortAt flash abort0 (resp_init q base) q base
        | exact handle_erase_busy cfg abortAt flash abort0 (resp_init q base) q base

/-- C10: the cancellation hook returns `true` and leaves both flags
unchanged whenever `busy` is false; whenever `busy` is true it returns
`false` (swallowing the key event) for every keycode and leaves `busy`
unchanged, and starting from a clear abort flag it sets `abort_requested`
if and only if the event is a press of `KC_ESC` — no other key and no
release event sets the flag (an already-set flag stays set). -/
theorem C10_hook (busy abort : Bool) (keycode : Nat) (pressed : Bool) :
    (busy = false →
      secret_storage_process_record_user busy abort keycode pressed =
        (true, busy, abort)) ∧
    (busy = true →
      (secret_storage_process_record_user busy abort keycode pressed).1 = false ∧
      (secret_storage_process_record_user busy abort keycode pressed).2.1 = true ∧
      ((secret_storage_process_record_user busy abort keycode pressed).2.2 = true ↔
        (abort = true ∨ (pressed = true ∧ keycode = KC_ESC))) ∧
      (abort = false →
        ((secret_storage_process_record_user busy abort keycode pressed).2.2 = true ↔
          (pressed = true ∧ keycode = KC_ESC)))) := by
  constructor
  · intro hb
    subst hb
    simp [secret_storage_process_record_user]
  · intro hb
    subst hb
    by_cases hk : pressed = true ∧ keycode = KC_ESC
    · simp [secret_storage_process_record_user, hk]
    · refine ⟨?_, ?_, ?_, ?_⟩ <;>
        simp [secret_storage_process_record_user, hk]

/-- Witness for C10: pressing Escape while busy sets the abort flag;
pressing another key (0x04) while busy does not; while idle the hook passes
the event through unchanged. -/
theorem C10_hook_witness :
    secret_storage_process_record_user false false 0x29 true =
      (true, false, false) ∧
    (secret_storage_process_record_user true false 0x29 true).1 = false ∧
    (secret_storage_process_record_user true false 0x29 true).2.2 = true ∧
    (secret_storage_process_record_user true false 0x04 true).2.2 = false := by
  have h1 := (C10_hook false false 0x29 true).1 rfl
  have h2 := (C10_hook true false 0x29 true).2 rfl
  have h3 := (C10_hook true false 0x04 true).2 rfl
  refine ⟨h1, h2.1, ?_, ?_⟩
  · exact (h2.2.2.2 rfl).mpr ⟨rfl, rfl⟩
  · have h4 := h3.2.2.2 rfl
    rcases Bool.eq_false_or_eq_true
        ((secret_storage_process_record_user true false 0x04 true).2.2) with hb | hb
    · exact absurd (h4.mp hb).2 (by decide)
    · exact hb

theorem classify_congr (q q' : Frame) (h0 : q' 0 = q 0) (h1 : q' 1 = q 1) :
    classify q' = classify q := by
  unfold classify
  rw [h0, h1]

theorem resp_init_congr (q q' : Frame) (base : Nat) (h0 : q' 0 = q 0)
    (hb : base = 0 ∨ base = 1) (j : Nat) (hj : j < 32) :
    resp_init q' base j = resp_init q base j := by
  rcases hb with hb | hb <;> subst hb
  · show zeroTail q' j = zeroTail q j
    unfold zeroTail
    by_cases hcond : 1 ≤ j ∧ j ≤ 31
    · rw [if_pos hcond, if_pos hcond]
    · rw [if_neg hcond, if_neg hcond]
      have : j = 0 := by omega
      subst this
      exact h0
  · show upd (zeroTail q') 0 (q' 0) j = upd (zeroTail q) 0 (q 0) j
    unfold upd
    by_cases hj0 : j = 0
    · rw [if_pos hj0, if_pos hj0, h0]
    · rw [if_neg hj0, if_neg hj0]
      unfold zeroTail
      have hcond : 1 ≤ j ∧ j ≤ 31 := by omega
      rw [if_pos hcond, if_pos hcond]

/-- C6: every command other than INFO received while `busy` is true yields
status BUSY at offset 1 after the command byte; flash contents and the
`busy`/`abort` flags are unchanged; and the result does not inspect the
request's argument bytes — any two frames agreeing on the two
classification bytes produce identical responses. -/
theorem C6_busy_reject (cfg : Cfg) (abortAt : Nat → Bool) (abort0 : Bool)
    (flash : Flash) (q : Frame) (base cmd : Nat)
    (hc : classify q = some (base, cmd)) (hni : cmd ≠ SECRET_CMD_INFO) :
    (raw_hid_receive_kb cfg abortAt true abort0 flash q).data (base+1) =
      SECRET_STATUS_BUSY ∧
    (raw_hid_receive_kb cfg abortAt true abort0 flash q).flash = flash ∧
    (raw_hid_receive_kb cfg abortAt true abort0 flash q).busy = true ∧
    (raw_hid_receive_kb cfg abortAt true abort0 flash q).abort = abort0 ∧
    ∀ q' : Frame, q' 0 = q 0 → q' 1 = q 1 → ∀ j, j < 32 →
      (raw_hid_receive_kb cfg abortAt true abort0 flash q').data j =
        (raw_hid_receive_kb cfg abortAt true abort0 flash q).data j := by
  have hout : ∀ r : Frame, classify r = some (base, cmd) →
      raw_hid_receive_kb cfg abortAt true abort0 flash r =
        ⟨upd (resp_init r base) (base+1) SECRET_STATUS_BUSY, flash, true,
          abort0⟩ := by
    intro r hr
    rw [raw_hid_eq_dispatch cfg abortAt true abort0 flash r base cmd hr]
    simp [dispatch_cmd, hni]
  have hb01 : base = 0 ∨ base = 1 := by
    rcases classify_cases q base cmd hc with ⟨h, _⟩ | ⟨h, _⟩
    · exact Or.inl h
    · exact Or.inr h
  rw [hout q hc]
  refine ⟨upd_eq _ _ _, rfl, rfl, rfl, fun q' h0 h1 j hj => ?_⟩
  rw [hout q' (by rw [classify_congr q q' h0 h1]; exact hc)]
  show upd (resp_init q' base) (base+1) SECRET_STATUS_BUSY j =
    upd (resp_init q base) (base+1) SECRET_STATUS_BUSY j
  unfold upd
  by_cases hj1 : j = base + 1
  · rw [if_pos hj1, if_pos hj1]
  · rw [if_neg hj1, if_neg hj1]
    exact resp_init_congr q q' base h0 hb01 j hj

/-- Witness for C6: a READ request received while busy gets status BUSY,
flash and flags are untouched, and a second frame with different argument
bytes gets the identical response byte. -/
theorem C6_busy_reject_witness :
    (raw_hid_receive_kb exampleCfg (fun _ => false) true false (fun _ => 0)
      (frameOf [0xA1])).data 1 = SECRET_STATUS_BUSY ∧
    (raw_hid_receive_kb exampleCfg (fun _ => false) true false (fun _ => 0)
      (frameOf [0xA1])).busy = true ∧
    (raw_hid_receive_kb exampleCfg (fun _ => false) true false (fun _ => 0)
      (frameOf [0xA1, 0, 0, 0, 0, 9])).data 5 =
      (raw_hid_receive_kb exampleCfg (fun _ => false) true false (fun _ => 0)
        (frameOf [0xA1])).data 5 := by
  have h := C6_busy_reject exampleCfg (fun _ => false) false (fun _ => 0)
    (frameOf [0xA1]) 0 0xA1 (by decide) (by decide)
  exact ⟨h.1, h.2.2.1,
    h.2.2.2.2 (frameOf [0xA1, 0, 0, 0, 0, 9]) rfl rfl 5 (by decide)⟩

/-- C7: for an ERASE request processed while not busy, validation is
applied in order — `size = 0` yields ERR; otherwise a failing range check
(the `uint32_t` sum `offset + size`, as the code computes it, exceeding
`region.size`) yields RANGE; otherwise a misaligned `offset` or `size`
yields ALIGN — and in each rejection case flash contents and both flags are
left untouched, the engine never being invoked. -/
theorem C7_erase_validation (cfg : Cfg) (abortAt : Nat → Bool) (abort0 : Bool)
    (flash : Flash) (q : Frame) (base : Nat)
    (hc : classify q = some (base, SECRET_CMD_ERASE)) :
    (read_u32_be q (base+5) = 0 →
      (raw_hid_receive_kb cfg abortAt false abort0 flash q).data (base+1) =
        SECRET_STATUS_ERR ∧
      (raw_hid_receive_kb cfg abortAt false abort0 flash q).flash = flash ∧
      (raw_hid_receive_kb cfg abortAt false abort0 flash q).busy = false ∧
      (raw_hid_receive_kb cfg abortAt false abort0 flash q).abort = abort0) ∧
    (read_u32_be q (base+5) ≠ 0 →
      cfg.storageSize <
        (read_u32_be q (base+1) + read_u32_be q (base+5)) % 4294967296 →
      (raw_hid_receive_kb cfg abortAt false abort0 flash q).data (base+1) =
        SECRET_STATUS_RANGE ∧
      (raw_hid_receive_kb cfg abortAt false abort0 flash q).flash = flash ∧
      (raw_hid_receive_kb cfg abortAt false abort0 flash q).busy = false ∧
      (raw_hid_receive_kb cfg abortAt false abort0 flash q).abort = abort0) ∧
    (read_u32_be q (base+5) ≠ 0 →
      ¬ cfg.storageSize <
        (read_u32_be q (base+1) + read_u32_be q (base+5)) % 4294967296 →
      (read_u32_be q (base+1) % cfg.sectorSize ≠ 0 ∨
        read_u32_be q (base+5) % cfg.sectorSize ≠ 0) →
      (raw_hid_receive_kb cfg abortAt false abort0 flash q).data (base+1) =
        SECRET_STATUS_ALIGN ∧
      (raw_hid_receive_kb cfg abortAt false abort0 flash q).flash = flash ∧
      (raw_hid_receive_kb cfg abortAt false abort0 flash q).busy = false ∧
      (raw_hid_receive_kb cfg abortAt false abort0 flash q).abort = abort0) := by
  rw [raw_hid_eq_dispatch cfg abortAt false abort0 flash q base
    SECRET_CMD_ERASE hc, dispatch_erase_eq]
  refine ⟨fun h0 => ?_, fun h0 hr => ?_, fun h0 hr hal => ?_⟩
  · have hout : handle_erase cfg abortAt flash false abort0 (resp_init q base)
        q base =
        ⟨upd (resp_init q base) (base+1) SECRET_STATUS_ERR, flash, false,
          abort0⟩ := by
      simp only [handle_erase]
      rw [if_pos h0]
    rw [hout]
    exact ⟨upd_eq _ _ _, rfl, rfl, rfl⟩
  · have hout : handle_erase cfg abortAt flash false abort0 (resp_init q base)
        q base =
        ⟨upd (resp_init q base) (base+1) SECRET_STATUS_RANGE, flash, false,
          abort0⟩ := by
      simp only [handle_erase]
      rw [if_neg h0, if_pos hr]
    rw [hout]
    exact ⟨upd_eq _ _ _, rfl, rfl, rfl⟩
  · have hout : handle_erase cfg abortAt flash false abort0 (resp_init q base)
        q base =
        ⟨upd (resp_init q base) (base+1) SECRET_STATUS_ALIGN, flash, false,
          abort0⟩ := by
      simp only [handle_erase]
      rw [if_neg h0, if_neg hr, if_pos hal]
    rw [hout]
    exact ⟨upd_eq _ _ _, rfl, rfl, rfl⟩

/-- Witness for C7: a zero-size ERASE gets ERR; an 8192-byte ERASE of the
4096-byte region gets RANGE; an in-range ERASE whose size 2048 is not a
sector multiple gets ALIGN — each leaving flash untouched. -/
theorem C7_erase_validation_witness :
    (raw_hid_receive_kb exampleCfg (fun _ => false) false false (fun _ => 0)
      (frameOf [0xA3])).data 1 = SECRET_STATUS_ERR ∧
    (raw_hid_receive_kb exampleCfg (fun _ => false) false false (fun _ => 0)
      (frameOf [0xA3, 0, 0, 0, 0, 0, 0, 0x20, 0])).data 1 =
      SECRET_STATUS_RANGE ∧
    (raw_hid_receive_kb exampleCfg (fun _ => false) false false (fun _ => 0)
      (frameOf [0xA3, 0, 0, 0, 0, 0, 0, 0x08, 0])).data 1 =
      SECRET_STATUS_ALIGN ∧
    (raw_hid_receive_kb exampleCfg (fun _ => false) false false (fun _ => 0)
      (frameOf [0xA3, 0, 0, 0, 0, 0, 0, 0x08, 0])).flash = (fun _ => 0) := by
  have h1 := (C7_erase_validation exampleCfg (fun _ => false) false
    (fun _ => 0) (frameOf [0xA3]) 0 (by decide)).1 (by decide)
  have h2 := (C7_erase_validation exampleCfg (fun _ => false) false
    (fun _ => 0) (frameOf [0xA3, 0, 0, 0, 0, 0, 0, 0x20, 0]) 0
    (by decide)).2.1 (by decide) (by decide)
  have h3 := (C7_erase_validation exampleCfg (fun _ => false) false
    (fun _ => 0) (frameOf [0xA3, 0, 0, 0, 0, 0, 0, 0x08, 0]) 0
    (by decide)).2.2 (by decide) (by decide) (by decide)
  exact ⟨h1.1, h2.1, h3.1, h3.2.1⟩

theorem info_fill_data0 (cfg : Cfg) (d : Frame) :
    info_fill cfg d 1 0 = d 0 := by
  simp only [info_fill, write_u32_be]
  repeat rw [upd_ne _ _ _ _ (by decide)]

theorem dispatchOut_data (d : Frame) (fl : Flash) (b ab : Bool) :
    (DispatchOut.mk d fl b ab).data = d := rfl

theorem handle_read_data0 (cfg : Cfg) (abortAt : Nat → Bool) (flash : Flash)
    (busy0 abort0 : Bool) (d1 q : Frame) :
    (handle_read cfg abortAt flash busy0 abort0 d1 q 1).data 0 = d1 0 := by
  simp only [handle_read]
  split_ifs
  · rw [dispatchOut_data]
    exact upd_ne _ _ _ _ (by decide)
  · rw [dispatchOut_data]
    exact upd_ne _ _ _ _ (by decide)
  · rw [dispatchOut_data]
    rw [upd_ne _ _ _ _ (by decide)]
    show (if 1+3 ≤ 0 ∧ 0 < 1+3+q (1+5) then
      secret_read_bytes cfg flash (read_u32_be q (1+1)) (0 - (1+3))
      else d1 0) = d1 0
    rw [if_neg (by omega)]
  · rw [dispatchOut_data]
    rw [upd_ne _ _ _ _ (by decide), upd_ne _ _ _ _ (by decide)]
    show (if 1+3 ≤ 0 ∧ 0 < 1+3+q (1+5) then
      secret_read_bytes cfg flash (read_u32_be q (1+1)) (0 - (1+3))
      else d1 0) = d1 0
    rw [if_neg (by omega)]

theorem handle_write_data0 (cfg : Cfg) (abortAt : Nat → Bool) (flash : Flash)
    (busy0 abort0 : Bool) (d1 q : Frame) :
    (handle_write cfg abortAt flash busy0 abort0 d1 q 1).data 0 = d1 0 := by
  simp only [handle_write]
  split_ifs <;>
    (rw [dispatchOut_data]
     exact upd_ne _ _ _ _ (by decide))

theorem handle_erase_data0 (cfg : Cfg) (abortAt : Nat → Bool) (flash : Flash)
    (busy0 abort0 : Bool) (d1 q : Frame) :
    (handle_erase cfg abortAt flash busy0 abort0 d1 q 1).data 0 = d1 0 := by
  simp only [handle_erase]
  split_ifs <;>
    (rw [dispatchOut_data]
     exact upd_ne _ _ _ _ (by decide))

theorem dispatch_data0_base1 (cfg : Cfg) (abortAt : Nat → Bool)
    (busy0 abort0 : Bool) (flash : Flash) (q : Frame) (cmd : Nat) :
    (dispatch_cmd cfg abortAt busy0 abort0 flash q 1 cmd).data 0 = q 0 := by
  have hr : resp_init q 1 0 = q 0 := by simp [resp_init, upd]
  simp only [dispatch_cmd]
  split_ifs
  · show info_fill cfg (resp_init q 1) 1 0 = q 0
    rw [info_fill_data0, hr]
  · show upd (resp_init q 1) (1+1) SECRET_STATUS_BUSY 0 = q 0
    rw [upd_ne _ _ _ _ (by decide), hr]
  · rw [handle_read_data0, hr]
  · rw [handle_write_data0, hr]
  · rw [handle_erase_data0, hr]
  · exact hr

/-- C8: command classification checks byte 0 first, byte 1 second — a frame
whose byte 0 is one of the four command codes is always dispatched
unprefixed (base 0); a frame whose byte 0 is not a command code but whose
byte 1 is, is dispatched as report-ID-prefixed (base 1) with byte 0 echoed
in the response; if neither byte is a recognized code, byte 0 of the
response is set to 0xFF and nothing else is done (every other byte, flash,
and both flags are untouched). -/
theorem C8_classification (cfg : Cfg) (abortAt : Nat → Bool)
    (busy0 abort0 : Bool) (flash : Flash) (q : Frame) :
    (is_cmd (q 0) = true → classify q = some (0, q 0)) ∧
    (is_cmd (q 0) = false → is_cmd (q 1) = true →
      classify q = some (1, q 1) ∧
      (raw_hid_receive_kb cfg abortAt busy0 abort0 flash q).data 0 = q 0) ∧
    (is_cmd (q 0) = false → is_cmd (q 1) = false →
      (raw_hid_receive_kb cfg abortAt busy0 abort0 flash q).data 0 = 0xFF ∧
      (∀ j, 1 ≤ j →
        (raw_hid_receive_kb cfg abortAt busy0 abort0 flash q).data j = q j) ∧
      (raw_hid_receive_kb cfg abortAt busy0 abort0 flash q).flash = flash ∧
      (raw_hid_receive_kb cfg abortAt busy0 abort0 flash q).busy = busy0 ∧
      (raw_hid_receive_kb cfg abortAt busy0 abort0 flash q).abort = abort0) := by
  refine ⟨fun h0 => by simp [classify, h0], fun h0 h1 => ⟨?_, ?_⟩,
    fun h0 h1 => ?_⟩
  · simp [classify, h0, h1]
  · have hcq : classify q = some (1, q 1) := by simp [classify, h0, h1]
    rw [raw_hid_eq_dispatch cfg abortAt busy0 abort0 flash q 1 (q 1) hcq]
    exact dispatch_data0_base1 cfg abortAt busy0 abort0 flash q (q 1)
  · have hcq : classify q = none := by simp [classify, h0, h1]
    have hout : raw_hid_receive_kb cfg abortAt busy0 abort0 flash q =
        ⟨upd q 0 0xFF, flash, busy0, abort0⟩ := by
      simp [raw_hid_receive_kb, hcq]
    rw [hout]
    refine ⟨?_, fun j hj => ?_, rfl, rfl, rfl⟩
    · rw [dispatchOut_data]
      exact upd_eq _ _ _
    · rw [dispatchOut_data]
      exact upd_ne _ _ _ _ (by omega)

/-- Witness for C8: byte 0 = 0xA0 is dispatched unprefixed even though
byte 1 is also a command code; `[0x07, 0xA0]` is dispatched prefixed with
the report ID echoed; `[0x07, 0x08]` is unhandled — byte 0 becomes 0xFF,
byte 1 is untouched, and state is unchanged. -/
theorem C8_classification_witness :
    classify (frameOf [0xA0, 0xA1]) = some (0, 0xA0) ∧
    classify (frameOf [0x07, 0xA0]) = some (1, 0xA0) ∧
    (raw_hid_receive_kb exampleCfg (fun _ => false) false false (fun _ => 0)
      (frameOf [0x07, 0xA0])).data 0 = 0x07 ∧
    (raw_hid_receive_kb exampleCfg (fun _ => false) false false (fun _ => 0)
      (frameOf [0x07, 0x08])).data 0 = 0xFF ∧
    (raw_hid_receive_kb exampleCfg (fun _ => false) false false (fun _ => 0)
      (frameOf [0x07, 0x08])).data 1 = 0x08 ∧
    (raw_hid_receive_kb exampleCfg (fun _ => false) false false (fun _ => 0)
      (frameOf [0x07, 0x08])).busy = false := by
  have ha := (C8_classification exampleCfg (fun _ => false) false false
    (fun _ => 0) (frameOf [0xA0, 0xA1])).1 (by decide)
  have hb := (C8_classification exampleCfg (fun _ => false) false false
    (fun _ => 0) (frameOf [0x07, 0xA0])).2.1 (by decide) (by decide)
  have hc := (C8_classification exampleCfg (fun _ => false) false false
    (fun _ => 0) (frameOf [0x07, 0x08])).2.2 (by decide) (by decide)
  refine ⟨?_, ?_, hb.2, hc.1, ?_, hc.2.2.2.1⟩
  · rw [ha]
    decide
  · rw [hb.1]
    decide
  · have := hc.2.1 1 (by omega)
    rw [this]
    decide

/-- C5: abort takes effect only at unit boundaries, committed units keep
their new state, and the dispatcher prefers ABORT.  Part 1 (write): for an
operation whose byte range does not overflow the `uint32_t` address space,
if the abort flag is first seen true at the `t`-th chunk-boundary poll while
payload remains, the engine stops with result `false` after `t` committed
chunks, the committed prefix holds the new bytes, and every flash byte
outside it is unchanged.  Part 2 (erase): likewise at the `t`-th
sector-boundary poll, with exactly the first `t` sectors erased and the
rest untouched (when `start + length` wraps modulo `2^32` the C loop runs
zero iterations, so there is no in-flight operation to abort and the
hypothesis excludes it).  Part 3 (dispatcher): for any non-INFO command
accepted while not busy with a clear abort flag, if the flag is true at the
final check the response status is ABORT, overriding the engine's own
result. -/
theorem C5_abort_boundary (cfg : Cfg) (abortAt : Nat → Bool) :
    (∀ (flash : Flash) (offset : Nat) (src : Nat → Nat) (length t : Nat),
      secret_flash_offset cfg offset + length ≤ 4294967296 →
      (∀ j, j < t → abortAt j = false) → abortAt t = true →
      committedW cfg (secret_flash_offset cfg offset) length t < length →
      (secret_write_bytes cfg abortAt flash offset src length).1 = false ∧
      (secret_write_bytes cfg abortAt flash offset src length).2.2 = t + 1 ∧
      ∀ a, (secret_write_bytes cfg abortAt flash offset src length).2.1 a =
        if secret_flash_offset cfg offset ≤ a ∧
            a < secret_flash_offset cfg offset +
              committedW cfg (secret_flash_offset cfg offset) length t
        then src (a - secret_flash_offset cfg offset) else flash a) ∧
    (∀ (flash : Flash) (offset length t : Nat),
      offset % cfg.sectorSize = 0 → length % cfg.sectorSize = 0 →
      secret_flash_offset cfg offset + length < 4294967296 →
      t < length / cfg.sectorSize →
      (∀ j, j < t → abortAt j = false) → abortAt t = true →
      (secret_erase_range cfg abortAt flash offset length).1 = false ∧
      (secret_erase_range cfg abortAt flash offset length).2.2 = t + 1 ∧
      ∀ a, (secret_erase_range cfg abortAt flash offset length).2.1 a =
        if secret_flash_offset cfg offset ≤ a ∧
            a < secret_flash_offset cfg offset + t * cfg.sectorSize
        then 0xFF else flash a) ∧
    (∀ (flash : Flash) (q : Frame) (base cmd : Nat),
      classify q = some (base, cmd) → cmd ≠ SECRET_CMD_INFO →
      (raw_hid_receive_kb cfg abortAt false false flash q).abort = true →
      (raw_hid_receive_kb cfg abortAt false false flash q).data (base+1) =
        SECRET_STATUS_ABORT) := by
  refine ⟨?_, ?_, ?_⟩
  · intro flash offset src length t hnw hpre habt hcom
    have h := write_go_abort_apply cfg abortAt t length flash
      (secret_flash_offset cfg offset) src length 0 (le_refl _) hnw
      (fun j hj => by simpa using hpre j hj)
      (by simpa using habt) hcom
    exact ⟨h.1, by simpa using h.2.1, h.2.2⟩
  · intro flash offset length t hoff hlen hnw htn hpre habt
    have hguard : secret_erase_range cfg abortAt flash offset length =
        erase_loop cfg abortAt (length / cfg.sectorSize) flash
          (secret_flash_offset cfg offset) 0 := by
      simp only [secret_erase_range]
      rw [if_neg (by simp [hoff, hlen])]
      have h1 : (secret_flash_offset cfg offset + length) % 4294967296 -
          secret_flash_offset cfg offset = length := by omega
      rw [h1]
    have h := erase_loop_abort_apply cfg abortAt t (length / cfg.sectorSize)
      flash (secret_flash_offset cfg offset) 0 htn
      (fun j hj => by simpa using hpre j hj) (by simpa using habt)
    rw [hguard]
    exact ⟨h.1, by simpa using h.2.1, h.2.2⟩
  · intro flash q base cmd hc hni
    rw [raw_hid_eq_dispatch cfg abortAt false false flash q base cmd hc]
    rcases classify_mem q base cmd hc with h | h | h | h
    · exact absurd h hni
    · rw [h, dispatch_read_eq]
      simp only [handle_read]
      split_ifs <;> intro hab <;>
        first
          | (rw [dispatchOut_data]; exact upd_eq _ _ _)
          | (exfalso; simp at hab)
    · rw [h, dispatch_write_eq]
      simp only [handle_write]
      split_ifs <;> intro hab <;>
        first
          | (rw [dispatchOut_data]; exact upd_eq _ _ _)
          | (exfalso; simp at hab)
    · rw [h, dispatch_erase_eq]
      simp only [handle_erase]
      split_ifs <;> intro hab <;>
        first
          | (rw [dispatchOut_data]; exact upd_eq _ _ _)
          | (exfalso; simp at hab)

/-- Witness for C5: with the abort flag raised from poll index 1 onward, a
4100-byte write starting at offset 0 commits exactly its first chunk (4096
bytes, which read back as the written value 1) and stops with result
`false` at the second poll, leaving byte 2088960 (just past the committed
prefix) unchanged; an 8192-byte erase commits exactly its first sector
(byte 2084864 reads 0xFF) and leaves the second sector's first byte
unchanged; and a dispatched WRITE aborted before its first chunk reports
status ABORT. -/
theorem C5_abort_boundary_witness :
    (secret_write_bytes exampleCfg (fun j => decide (1 ≤ j)) (fun _ => 7) 0
      (fun _ => 1) 4100).1 = false ∧
    (secret_write_bytes exampleCfg (fun j => decide (1 ≤ j)) (fun _ => 7) 0
      (fun _ => 1) 4100).2.2 = 2 ∧
    (secret_write_bytes exampleCfg (fun j => decide (1 ≤ j)) (fun _ => 7) 0
      (fun _ => 1) 4100).2.1 2084864 = 1 ∧
    (secret_write_bytes exampleCfg (fun j => decide (1 ≤ j)) (fun _ => 7) 0
      (fun _ => 1) 4100).2.1 2088960 = 7 ∧
    (secret_erase_range exampleCfg (fun j => decide (1 ≤ j)) (fun _ => 7) 0
      8192).1 = false ∧
    (secret_erase_range exampleCfg (fun j => decide (1 ≤ j)) (fun _ => 7) 0
      8192).2.1 2084864 = 0xFF ∧
    (secret_erase_range exampleCfg (fun j => decide (1 ≤ j)) (fun _ => 7) 0
      8192).2.1 2088960 = 7 ∧
    (raw_hid_receive_kb exampleCfg (fun _ => true) false false (fun _ => 7)
      (frameOf [0xA2, 0, 0, 0, 0, 1, 9])).data 1 = SECRET_STATUS_ABORT := by
  have hW := (C5_abort_boundary exampleCfg (fun j => decide (1 ≤ j))).1
    (fun _ => 7) 0 (fun _ => 1) 4100 1 (by decide) (by decide) (by decide)
    (by decide)
  have hE := (C5_abort_boundary exampleCfg (fun j => decide (1 ≤ j))).2.1
    (fun _ => 7) 0 8192 1 (by decide) (by decide) (by decide) (by decide)
    (by decide) (by decide)
  have hD := (C5_abort_boundary exampleCfg (fun _ => true)).2.2
    (fun _ => 7) (frameOf [0xA2, 0, 0, 0, 0, 1, 9]) 0 0xA2 (by decide)
    (by decide) (by decide)
  refine ⟨hW.1, hW.2.1, ?_, ?_, hE.1, ?_, ?_, hD⟩
  · rw [hW.2.2 2084864]
    decide
  · rw [hW.2.2 2088960]
    decide
  · rw [hE.2.2 2084864]
    decide
  · rw [hE.2.2 2088960]
    decide

end SecretStorage
